import Mathlib

/-!
Shallow embedding of the error-handler chain units in
`src/app/src/lib/dispatcher/error-handlers.ts`.

Each TypeScript handler is an async function `(error, dispatcher) -> Error | null`.
We model a handler invocation as a pure function returning the ordered list of
awaited side effects it performed on the dispatch context together with its
returned value: `none` stands for the TypeScript `null` (resolved, chain
stops) and `some e` for a propagated error. Sequential awaiting is captured
by the order of the effect list.

Types imported by the handler module from outside `src/` (the dugite
enumeration and its error-code constant, the `GitError` and
`ErrorWithMetadata` classes, the selection state and the app store) are
modelled from the spec, as marked on each definition.
-/

namespace ErrorHandlers

/-- Modelled from the spec: the external-tool error enumeration (dugite's
`GitError`, not under `src/`). The handlers only distinguish the
"not a valid repository" value and the closed set of authentication-related
values; `Other n` stands for every further enumeration value. -/
inductive DugiteError where
  | NotAGitRepository
  | SSHAuthenticationFailed
  | SSHPermissionDenied
  | HTTPSAuthenticationFailed
  | Other (n : Nat)
  deriving DecidableEq

/-- Modelled from the spec: the structured result carried by the domain
operation wrapper (`gitError.result`, from code not under `src/`); it
optionally carries a known-error enumeration value. -/
structure GitResult where
  gitError : Option DugiteError
  deriving DecidableEq

/-- Modelled from the spec: the contextual-flag mapping attached by the
metadata wrapper (code not under `src/`); the `backgroundTask` flag may be
absent. -/
structure ErrorMetadata where
  backgroundTask : Option Bool
  deriving DecidableEq

/-- The ambient error value, as the classifiers in `error-handlers.ts` can
observe it. Any error may expose a `code` property (`asErrorWithCode` probes
an arbitrary error for it, and the `IErrorWithCode` interface declares it a
string); an error may additionally be an instance of the `GitError` class
(carrying a structured `result`) or of the `ErrorWithMetadata` class
(carrying `metadata` and a wrapped inner `error`). The two classes are
unrelated subclasses of `Error`, so the two instance checks are mutually
exclusive, which the three disjoint constructors reflect. -/
inductive Err where
  | plain (code : Option String)
  | git (code : Option String) (result : GitResult)
  | meta (code : Option String) (metadata : ErrorMetadata) (error : Err)
  deriving DecidableEq

/-- The `code` property of an error, absent when the error exposes none. -/
def Err.code : Err → Option String
  | .plain c => c
  | .git c _ => c
  | .meta c _ _ => c

/-- JavaScript truthiness of an optional string property: an absent value and
the empty string are falsy, every other string is truthy. This mirrors the
`if (e.code)` test in `asErrorWithCode`. -/
def jsTruthy : Option String → Bool
  | none => false
  | some s => decide (s ≠ "")

/-- `asErrorWithCode` from `error-handlers.ts`: returns the error itself,
narrowed to a coded error, when its `code` property is truthy; otherwise
returns `null`. -/
def asErrorWithCode (error : Err) : Option Err :=
  if jsTruthy error.code then some error else none

/-- The fields the `ErrorWithMetadata` narrowing exposes. The TypeScript
classifier returns the same object viewed at the wrapper class; the view
records the fields that narrowing gives access to. Modelled from the spec:
the wrapper class itself lives outside `src/`. -/
structure ErrorWithMetadataView where
  code : Option String
  metadata : ErrorMetadata
  error : Err
  deriving DecidableEq

/-- `asErrorWithMetadata` from `error-handlers.ts`: an `instanceof` check on
the `ErrorWithMetadata` class; yields the wrapper's view, otherwise `null`. -/
def asErrorWithMetadata : Err → Option ErrorWithMetadataView
  | .meta c m e => some ⟨c, m, e⟩
  | _ => none

/-- The fields the `GitError` narrowing exposes. Modelled from the spec: the
`GitError` class lives outside `src/`. -/
structure GitErrorView where
  code : Option String
  result : GitResult
  deriving DecidableEq

/-- `asGitError` from `error-handlers.ts`: an `instanceof` check on the
`GitError` class; yields the git error's view, otherwise `null`. -/
def asGitError : Err → Option GitErrorView
  | .git c r => some ⟨c, r⟩
  | _ => none

/-- Modelled from the spec: the fixed string constant for the "repository
does not exist" coded error (exported by dugite, not under `src/`). Only its
being a fixed non-empty string matters to the handler. -/
def RepositoryDoesNotExistErrorCode : String := "repository-does-not-exist-error"

/-- Modelled from the spec: the closed set of authentication-related dugite
enumeration values (`AuthenticationErrors` from `../git/authentication`, not
under `src/`). -/
def AuthenticationErrors : List DugiteError :=
  [.SSHAuthenticationFailed, .SSHPermissionDenied, .HTTPSAuthenticationFailed]

/-- Modelled from the spec: a tracked repository as the missing-repository
handler observes it; `id` stands for the object's identity and `missing` is
the flag the handler reads. -/
structure Repository where
  id : Nat
  missing : Bool
  deriving DecidableEq

/-- Modelled from the spec: the selection-kind enumeration from
`../app-state` (not under `src/`). The handler cares about `Repository` and
`MissingRepository`; `CloningRepository` stands for the remaining kind. -/
inductive SelectionType where
  | Repository
  | CloningRepository
  | MissingRepository
  deriving DecidableEq

/-- Modelled from the spec: the current selection state — its kind tag plus
the tracked repository it carries. The handler reads `repository` only after
checking that the kind is `Repository` or `MissingRepository`. -/
structure SelectedState where
  type : SelectionType
  repository : Repository
  deriving DecidableEq

/-- Modelled from the spec: the slice of application state the handler
reads. -/
structure AppState where
  selectedState : Option SelectedState
  deriving DecidableEq

/-- Modelled from the spec: the state store collaborator; `getState` is the
state that the call `appStore.getState()` returns during the invocation. -/
structure AppStore where
  getState : AppState
  deriving DecidableEq

/-- One awaited side effect on the dispatch context: presenting an error,
marking a repository missing, or the diagnostic console log performed by the
authentication observer. -/
inductive Effect where
  | presentError (error : Err)
  | updateRepositoryMissing (repository : Repository) (missing : Bool)
  | consoleLog (d : DugiteError)
  deriving DecidableEq

/-- The outcome of one handler invocation: the effects it performed, in
order and each fully awaited, and the value it returned — `none` for the
TypeScript `null` (resolved), `some e` for a propagated error. -/
abbrev HandlerOutcome := List Effect × Option Err

/-- `defaultErrorHandler` from `error-handlers.ts`: awaits
`dispatcher.presentError(error)` and returns `null`. -/
def defaultErrorHandler (error : Err) : HandlerOutcome :=
  ([Effect.presentError error], none)

/-- The handler produced by `createMissingRepositoryHandler(appStore)` in
`error-handlers.ts`, applied to an error. -/
def createMissingRepositoryHandler (appStore : AppStore) (error : Err) :
    HandlerOutcome :=
  let appState := appStore.getState
  match appState.selectedState with
  | none => ([], some error)
  | some selectedState =>
    if selectedState.type ≠ SelectionType.MissingRepository ∧
        selectedState.type ≠ SelectionType.Repository then
      ([], some error)
    else
      let repository := selectedState.repository
      if repository.missing then
        ([], none)
      else
        let errorWithCode := asErrorWithCode error
        let gitError := asGitError error
        let missing :=
          (match gitError with
            | some g => decide (g.result.gitError = some DugiteError.NotAGitRepository)
            | none => false)
          || (match errorWithCode with
            | some e => decide (e.code = some RepositoryDoesNotExistErrorCode)
            | none => false)
        if missing then
          ([Effect.updateRepositoryMissing selectedState.repository true], none)
        else
          ([], some error)

/-- `backgroundTaskHandler` from `error-handlers.ts`: suppresses
metadata-wrapped errors whose `backgroundTask` flag is truthy; on every other
branch it returns the error it received. -/
def backgroundTaskHandler (error : Err) : HandlerOutcome :=
  match asErrorWithMetadata error with
  | none => ([], some error)
  | some e =>
    let metadata := e.metadata
    if metadata.backgroundTask.getD false then
      ([], none)
    else
      ([], some error)

/-- `gitAuthenticationErrorHandler` from `error-handlers.ts`: logs
authentication-related git errors; every branch returns the error
unchanged. -/
def gitAuthenticationErrorHandler (error : Err) : HandlerOutcome :=
  match asGitError error with
  | none => ([], some error)
  | some gitError =>
    match gitError.result.gitError with
    | none => ([], some error)
    | some dugiteError =>
      if ¬ AuthenticationErrors.contains dugiteError then
        ([], some error)
      else
        ([Effect.consoleLog dugiteError], some error)

/-- C4: for every input error, `defaultErrorHandler` invokes the dispatcher's
`presentError` capability exactly once with exactly the input error, awaits
it, and returns `null` (fully resolved); there is no classification gate and
it never propagates. -/
theorem defaultErrorHandler_presents_once_and_resolves (e : Err) :
    defaultErrorHandler e = ([Effect.presentError e], none) := rfl

/-- C3: `gitAuthenticationErrorHandler` never resolves: for every input
error — a git error or not, with or without a dugite value, in the
authentication set or not — it returns the input error unchanged and never
returns `null`. -/
theorem gitAuthenticationErrorHandler_never_resolves (e : Err) :
    (gitAuthenticationErrorHandler e).2 = some e := by
  unfold gitAuthenticationErrorHandler
  split
  · rfl
  · split
    · rfl
    · split <;> rfl

/-- C9: `asErrorWithCode` returns the narrowed coded-error view of its input
exactly when the error exposes a non-empty string `code` field, and returns
`null` for every other error. -/
theorem asErrorWithCode_some_iff_nonempty_code (e : Err) :
    (asErrorWithCode e = some e ↔ ∃ s, e.code = some s ∧ s ≠ "") ∧
    (asErrorWithCode e = none ↔ ¬ ∃ s, e.code = some s ∧ s ≠ "") := by
  unfold asErrorWithCode
  cases h : e.code with
  | none => simp [jsTruthy, h]
  | some s =>
    by_cases hs : s = "" <;> simp [jsTruthy, h, hs]

/-- C8: the three classifiers are total Lean functions returning an optional
narrowed view — hence pure, synchronous and non-throwing on every error
value, with no effects (their types admit none); an error that is not of the
target shape classifies as `none` rather than an exception. -/
theorem classifiers_total_and_non_matching_is_none (e : Err) :
    (jsTruthy e.code = false → asErrorWithCode e = none) ∧
    ((∀ c m i, e ≠ Err.meta c m i) → asErrorWithMetadata e = none) ∧
    ((∀ c r, e ≠ Err.git c r) → asGitError e = none) := by
  refine ⟨fun h => by simp [asErrorWithCode, h], fun h => ?_, fun h => ?_⟩
  · cases e with
    | plain c => rfl
    | git c r => rfl
    | meta c m i => exact absurd rfl (h c m i)
  · cases e with
    | plain c => rfl
    | git c r => exact absurd rfl (h c r)
    | meta c m i => rfl

/-- Witness for C8 at the concrete error `Err.plain none`: it matches no
classifier's shape and every classifier returns `none` on it. -/
theorem classifiers_total_and_non_matching_is_none_witness :
    asErrorWithCode (Err.plain none) = none ∧
    asErrorWithMetadata (Err.plain none) = none ∧
    asGitError (Err.plain none) = none := by
  have h := classifiers_total_and_non_matching_is_none (Err.plain none)
  exact ⟨h.1 rfl, h.2.1 (fun _ _ _ hc => Err.noConfusion hc),
    h.2.2 (fun _ _ hc => Err.noConfusion hc)⟩

/-- C5: `backgroundTaskHandler` returns `null` with no other action (no
presentation, no state mutation) on every metadata-wrapped error whose
`backgroundTask` flag is `true`, regardless of the wrapped inner error's
shape; and it returns every error that is not an `ErrorWithMetadata`
unchanged. -/
theorem backgroundTaskHandler_suppresses_background_tasks :
    (∀ c m i, m.backgroundTask = some true →
        backgroundTaskHandler (Err.meta c m i) = ([], none)) ∧
    (∀ e : Err, (∀ c m i, e ≠ Err.meta c m i) →
        backgroundTaskHandler e = ([], some e)) := by
  constructor
  · intro c m i h
    simp [backgroundTaskHandler, asErrorWithMetadata, h]
  · intro e h
    cases e with
    | plain c => rfl
    | git c r => rfl
    | meta c m i => exact absurd rfl (h c m i)

/-- Witness for C5: a concrete background-task wrapper is suppressed with no
effects, and a concrete plain error passes through unchanged. -/
theorem backgroundTaskHandler_suppresses_background_tasks_witness :
    backgroundTaskHandler (Err.meta none ⟨some true⟩ (Err.plain none)) =
        ([], none) ∧
    backgroundTaskHandler (Err.plain (some "boom")) =
        ([], some (Err.plain (some "boom"))) :=
  ⟨backgroundTaskHandler_suppresses_background_tasks.1 none ⟨some true⟩
      (Err.plain none) rfl,
    backgroundTaskHandler_suppresses_background_tasks.2 (Err.plain (some "boom"))
      (fun _ _ _ hc => Err.noConfusion hc)⟩

/-- Helper: the `missing` classification boolean computed inside the
missing-repository handler evaluates to `true` whenever the error is a git
error carrying `NotAGitRepository` or carries the
`RepositoryDoesNotExistErrorCode` code. -/
theorem missing_check_true (e : Err)
    (hqual :
      (∃ c r, e = Err.git c r ∧
        r.gitError = some DugiteError.NotAGitRepository) ∨
      e.code = some RepositoryDoesNotExistErrorCode) :
    ((match asGitError e with
      | some g => decide (g.result.gitError = some DugiteError.NotAGitRepository)
      | none => false)
      || (match asErrorWithCode e with
      | some e2 => decide (e2.code = some RepositoryDoesNotExistErrorCode)
      | none => false)) = true := by
  rcases hqual with ⟨c, r, rfl, hr⟩ | hc
  · simp [asGitError, hr]
  · have hcode : asErrorWithCode e = some e := by
      simp [asErrorWithCode, jsTruthy, hc, RepositoryDoesNotExistErrorCode]
    simp [hcode, hc]

/-- Helper: the `missing` classification boolean evaluates to `false` when
the error neither is a git error carrying `NotAGitRepository` nor carries the
`RepositoryDoesNotExistErrorCode` code. -/
theorem missing_check_false (e : Err)
    (hgit : ∀ c r, e = Err.git c r →
      r.gitError ≠ some DugiteError.NotAGitRepository)
    (hcode : e.code ≠ some RepositoryDoesNotExistErrorCode) :
    ((match asGitError e with
      | some g => decide (g.result.gitError = some DugiteError.NotAGitRepository)
      | none => false)
      || (match asErrorWithCode e with
      | some e2 => decide (e2.code = some RepositoryDoesNotExistErrorCode)
      | none => false)) = false := by
  have h1 : (match asGitError e with
      | some g => decide (g.result.gitError = some DugiteError.NotAGitRepository)
      | none => false) = false := by
    cases e with
    | plain c => rfl
    | meta c m i => rfl
    | git c r => simp [asGitError, hgit c r rfl]
  have h2 : (match asErrorWithCode e with
      | some e2 => decide (e2.code = some RepositoryDoesNotExistErrorCode)
      | none => false) = false := by
    unfold asErrorWithCode
    by_cases hj : jsTruthy e.code = true <;> simp [hj, hcode]
  rw [h1, h2]
  rfl

/-- C2: when the current selection is a normal (not-yet-missing) tracked
repository and the error is a `GitError` whose result carries
`NotAGitRepository`, or carries the `RepositoryDoesNotExistErrorCode` code,
the handler awaits exactly one `updateRepositoryMissing` call with the
selected repository and `true`, and returns `null` (resolved). -/
theorem createMissingRepositoryHandler_marks_missing (store : AppStore)
    (e : Err) (s : SelectedState)
    (hsel : store.getState.selectedState = some s)
    (htype : s.type = SelectionType.Repository)
    (hmiss : s.repository.missing = false)
    (hqual :
      (∃ c r, e = Err.git c r ∧
        r.gitError = some DugiteError.NotAGitRepository) ∨
      e.code = some RepositoryDoesNotExistErrorCode) :
    createMissingRepositoryHandler store e =
      ([Effect.updateRepositoryMissing s.repository true], none) := by
  simp [createMissingRepositoryHandler, hsel, htype, hmiss,
    missing_check_true e hqual]

/-- Witness for C2: a concrete store selecting a not-missing repository and a
concrete coded error produce exactly the one mutation effect and `null`. -/
theorem createMissingRepositoryHandler_marks_missing_witness :
    createMissingRepositoryHandler
        ⟨⟨some ⟨SelectionType.Repository, ⟨0, false⟩⟩⟩⟩
        (Err.plain (some RepositoryDoesNotExistErrorCode)) =
      ([Effect.updateRepositoryMissing ⟨0, false⟩ true], none) :=
  createMissingRepositoryHandler_marks_missing
    ⟨⟨some ⟨SelectionType.Repository, ⟨0, false⟩⟩⟩⟩
    (Err.plain (some RepositoryDoesNotExistErrorCode))
    ⟨SelectionType.Repository, ⟨0, false⟩⟩ rfl rfl rfl (Or.inr rfl)

/-- C6: when the current selection carries a repository already flagged
missing, the handler returns `null` immediately, with zero
`updateRepositoryMissing` calls and without classifying the error (the
outcome is the same for every error). -/
theorem createMissingRepositoryHandler_already_missing (store : AppStore)
    (e : Err) (s : SelectedState)
    (hsel : store.getState.selectedState = some s)
    (htype : s.type = SelectionType.Repository ∨
      s.type = SelectionType.MissingRepository)
    (hmiss : s.repository.missing = true) :
    createMissingRepositoryHandler store e = ([], none) := by
  rcases htype with h | h <;>
    simp [createMissingRepositoryHandler, hsel, h, hmiss]

/-- Witness for C6: a concrete already-missing selection suppresses a
concrete error with no effects. -/
theorem createMissingRepositoryHandler_already_missing_witness :
    createMissingRepositoryHandler
        ⟨⟨some ⟨SelectionType.MissingRepository, ⟨1, true⟩⟩⟩⟩
        (Err.plain (some RepositoryDoesNotExistErrorCode)) = ([], none) :=
  createMissingRepositoryHandler_already_missing
    ⟨⟨some ⟨SelectionType.MissingRepository, ⟨1, true⟩⟩⟩⟩
    (Err.plain (some RepositoryDoesNotExistErrorCode))
    ⟨SelectionType.MissingRepository, ⟨1, true⟩⟩ rfl (Or.inr rfl) rfl

/-- C7: when there is no selection, or the selection kind carries no tracked
repository, or the selected repository is not missing and the error does not
qualify as "repository now missing", the handler returns the input error
unchanged with zero `updateRepositoryMissing` calls. -/
theorem createMissingRepositoryHandler_propagates (store : AppStore) (e : Err)
    (h : store.getState.selectedState = none ∨
      (∃ s, store.getState.selectedState = some s ∧
        s.type ≠ SelectionType.Repository ∧
        s.type ≠ SelectionType.MissingRepository) ∨
      (∃ s, store.getState.selectedState = some s ∧
        s.repository.missing = false ∧
        (∀ c r, e = Err.git c r →
          r.gitError ≠ some DugiteError.NotAGitRepository) ∧
        e.code ≠ some RepositoryDoesNotExistErrorCode)) :
    createMissingRepositoryHandler store e = ([], some e) := by
  rcases h with h | ⟨s, hsel, h1, h2⟩ | ⟨s, hsel, hmiss, hgit, hcode⟩
  · simp [createMissingRepositoryHandler, h]
  · cases hty : s.type with
    | Repository => exact absurd hty h1
    | MissingRepository => exact absurd hty h2
    | CloningRepository => simp [createMissingRepositoryHandler, hsel, hty]
  · cases hty : s.type with
    | CloningRepository => simp [createMissingRepositoryHandler, hsel, hty]
    | Repository =>
      simp [createMissingRepositoryHandler, hsel, hty, hmiss,
        missing_check_false e hgit hcode]
    | MissingRepository =>
      simp [createMissingRepositoryHandler, hsel, hty, hmiss,
        missing_check_false e hgit hcode]

/-- Witness for C7: with no current selection, a concrete error passes
through unchanged with no effects. -/
theorem createMissingRepositoryHandler_propagates_witness :
    createMissingRepositoryHandler ⟨⟨none⟩⟩ (Err.plain none) =
      ([], some (Err.plain none)) :=
  createMissingRepositoryHandler_propagates ⟨⟨none⟩⟩ (Err.plain none)
    (Or.inl rfl)

/-- C1 as stated is false on the code at a concrete input: for this wrapper
with `backgroundTask: false`, `backgroundTaskHandler` returns the metadata
wrapper it received, and that wrapper is not the wrapped inner error. -/
theorem backgroundTaskHandler_returns_wrapper_counterexample :
    (backgroundTaskHandler
        (Err.meta none ⟨some false⟩ (Err.plain (some "inner")))).2 =
      some (Err.meta none ⟨some false⟩ (Err.plain (some "inner"))) ∧
    (Err.meta none ⟨some false⟩ (Err.plain (some "inner")) : Err) ≠
      Err.plain (some "inner") :=
  ⟨rfl, fun hc => Err.noConfusion hc⟩

/-- C1 amended: for every `ErrorWithMetadata` error whose metadata has
`backgroundTask` false (or absent), `backgroundTaskHandler` propagates the
metadata wrapper it received unchanged — not the unwrapped inner error — and
performs no effects. -/
theorem backgroundTaskHandler_propagates_wrapper (c : Option String)
    (m : ErrorMetadata) (i : Err) (h : m.backgroundTask ≠ some true) :
    backgroundTaskHandler (Err.meta c m i) =
      ([], some (Err.meta c m i)) := by
  unfold backgroundTaskHandler
  rcases hb : m.backgroundTask with _ | b
  · simp [asErrorWithMetadata, hb]
  · cases b
    · simp [asErrorWithMetadata, hb]
    · exact absurd hb h

/-- Witness for the amended C1: a concrete wrapper with `backgroundTask:
false` is returned itself, unchanged. -/
theorem backgroundTaskHandler_propagates_wrapper_witness :
    backgroundTaskHandler (Err.meta none ⟨some false⟩ (Err.plain none)) =
      ([], some (Err.meta none ⟨some false⟩ (Err.plain none))) :=
  backgroundTaskHandler_propagates_wrapper none ⟨some false⟩ (Err.plain none)
    (fun hc => Option.noConfusion hc (fun hb => Bool.noConfusion hb))

/-- C10: every propagating branch of the three non-terminal handlers returns
exactly the error it received: whenever the returned value of
`createMissingRepositoryHandler`, `backgroundTaskHandler` or
`gitAuthenticationErrorHandler` is `some x`, then `x` is the input error —
no handler constructs a replacement error. -/
theorem handlers_propagate_the_input_error (store : AppStore) (e x : Err) :
    ((createMissingRepositoryHandler store e).2 = some x → x = e) ∧
    ((backgroundTaskHandler e).2 = some x → x = e) ∧
    ((gitAuthenticationErrorHandler e).2 = some x → x = e) := by
  refine ⟨fun h => ?_, fun h => ?_, fun h => ?_⟩
  · unfold createMissingRepositoryHandler at h
    dsimp only at h
    split at h
    · exact (Option.some.inj h).symm
    · split at h
      · exact (Option.some.inj h).symm
      · split at h
        · exact Option.noConfusion h
        · split at h
          · exact Option.noConfusion h
          · exact (Option.some.inj h).symm
  · unfold backgroundTaskHandler at h
    dsimp only at h
    split at h
    · exact (Option.some.inj h).symm
    · split at h
      · exact Option.noConfusion h
      · exact (Option.some.inj h).symm
  · unfold gitAuthenticationErrorHandler at h
    split at h
    · exact (Option.some.inj h).symm
    · split at h
      · exact (Option.some.inj h).symm
      · split at h <;> exact (Option.some.inj h).symm

/-- Witness for C10: at a concrete store with no selection and a concrete
error, the missing-repository handler propagates and the propagated value is
the input error. -/
theorem handlers_propagate_the_input_error_witness :
    (createMissingRepositoryHandler ⟨⟨none⟩⟩ (Err.plain (some "x"))).2 =
        some (Err.plain (some "x")) ∧
    (Err.plain (some "x") : Err) = Err.plain (some "x") :=
  ⟨rfl, (handlers_propagate_the_input_error ⟨⟨none⟩⟩ (Err.plain (some "x"))
      (Err.plain (some "x"))).1 rfl⟩

end ErrorHandlers
